import Mathlib

/-!
Verification of the local-clipboard-share service (src/main.py).

The development shallowly embeds the storage class NetworkClipboard and the
two JSON HTTP handlers. JSON documents are modelled by the inductive type
Json; the storage file is modelled by its parse outcome (json.dump followed
by json.load of a string-keyed JSON tree is the identity at this level);
the two random 128-bit UUID values consumed by a creation call are explicit
inputs u1 and u2. Python-level dynamic behaviour that the handlers rely on
(truthiness, the membership operator, subscripting, and the exceptions they
raise) is embedded explicitly, since several claims turn on it.
-/

/-- JSON values as produced by json.load and request.json. Numbers are
modelled as integers; no claim depends on non-integral numerics. -/
inductive Json
  | null
  | bool (b : Bool)
  | num (n : Int)
  | str (s : String)
  | arr (xs : List Json)
  | obj (kvs : List (String × Json))

/-- Python truthiness of a JSON value: None, False, 0, the empty string,
the empty list and the empty dict are falsy, everything else is truthy. -/
def truthy : Json → Bool
  | Json.null => false
  | Json.bool b => b
  | Json.num n => n != 0
  | Json.str s => s != ""
  | Json.arr xs => !xs.isEmpty
  | Json.obj kvs => !kvs.isEmpty

/-- Lookup of a key in a key-value list, first match wins. On lists built
by setKey (which keeps keys unique, as a Python dict does) this is exactly
dict lookup. -/
def getKey : List (String × Json) → String → Option Json
  | [], _ => none
  | p :: rest, k => if p.1 = k then some p.2 else getKey rest k

/-- Python dict assignment d[k] = v: replace the value in place when the
key is present, append the pair otherwise. -/
def setKey : List (String × Json) → String → Json → List (String × Json)
  | [], k, v => [(k, v)]
  | p :: rest, k, v => if p.1 = k then (k, v) :: rest else p :: setKey rest k v

/-- Python equality of a JSON value with a string: true exactly on the
equal string, since no other JSON value compares equal to a string under
Python equality. -/
def jsonStrEq : Json → String → Bool
  | Json.str s, k => s == k
  | _, _ => false

/-- Test whether the second character list starts with the first one. -/
def beginsWith : List Char → List Char → Bool
  | [], _ => true
  | _ :: _, [] => false
  | a :: as, b :: bs => a == b && beginsWith as bs

/-- Python substring containment, needle then haystack. -/
def hasSub : List Char → List Char → Bool
  | n, [] => n.isEmpty
  | n, c :: t => beginsWith n (c :: t) || hasSub n t

/-- Python membership test of a string key in a JSON value, as in the
guard of the create handler. On a dict it tests key presence, on a list it
tests element equality with the string, on a string it tests substring
containment; on None, booleans and numbers the operator raises TypeError,
modelled by the error branch. -/
def pyContains (data : Json) (key : String) : Except Unit Bool :=
  match data with
  | Json.obj kvs => Except.ok (getKey kvs key).isSome
  | Json.arr xs => Except.ok (xs.any (fun j => jsonStrEq j key))
  | Json.str s => Except.ok (hasSub key.data s.data)
  | _ => Except.error ()

/-- Python subscript data[key] with a string key: on a dict it returns the
value or raises KeyError when the key is absent; on every other JSON value
subscripting by a string raises TypeError. Both exceptions are the error
branch. -/
def pySubscript (data : Json) (key : String) : Except Unit Json :=
  match data with
  | Json.obj kvs =>
    match getKey kvs key with
    | some v => Except.ok v
    | none => Except.error ()
  | _ => Except.error ()

/-- Lowercase hexadecimal digit, as used by the textual form of a UUID. -/
def hexDigit (n : Nat) : Char :=
  if n < 10 then Char.ofNat (48 + n) else Char.ofNat (87 + n)

/-- The w lowest hexadecimal digits of n, most significant first, zero
padded to exactly w characters. -/
def hexChars : Nat → Nat → List Char
  | 0, _ => []
  | w + 1, n => hexChars w (n / 16) ++ [hexDigit (n % 16)]

/-- Characters of str(uuid) for the 128-bit value u % 2^128: the canonical
8-4-4-4-12 lowercase hyphenated hexadecimal form, 36 characters. The
version and variant nibbles that the uuid module fixes inside the third
and fourth groups are left unconstrained here; no claim depends on them,
and the first eight characters are pure random bits in uuid4 either way. -/
def uuidChars (u : Nat) : List Char :=
  let v := u % 2 ^ 128
  hexChars 8 (v / 2 ^ 96)
    ++ '-' :: hexChars 4 (v / 2 ^ 80 % 2 ^ 16)
    ++ '-' :: hexChars 4 (v / 2 ^ 64 % 2 ^ 16)
    ++ '-' :: hexChars 4 (v / 2 ^ 48 % 2 ^ 16)
    ++ '-' :: hexChars 12 (v % 2 ^ 48)

/-- Textual form str(uuid.UUID(int = u)) of a 128-bit value. -/
def uuid_str (u : Nat) : String := String.mk (uuidChars u)

/-- Source line 57: entry_id = str(uuid.uuid4())[:8]. Python slicing of a
string by code points is List.take on the character list. -/
def short_id (u1 : Nat) : String := String.mk ((uuidChars u1).take 8)

/-- Source lines 58-61: the dict stored under the new identifier, holding
the submitted content and a second stringified UUID under "timestamp". -/
def mkEntry (content : Json) (u2 : Nat) : Json :=
  Json.obj [("content", content), ("timestamp", Json.str (uuid_str u2))]

/-- State of the storage file: absent, or present with a parse outcome.
The error branch covers both json.JSONDecodeError and IOError on read. -/
inductive FileState
  | absent
  | present (r : Except Unit Json)

/-- Process state: the in-memory self.data (an arbitrary JSON value, since
load_data hands back whatever json.load produced) and the storage file. -/
structure SysState where
  data : Json
  file : FileState

/-- Source lines 23-38, NetworkClipboard.load_data: an absent file gives
an empty dict, a file that fails to parse (or fails to open) gives an
empty dict, and otherwise the parsed JSON value is returned as is,
whatever its shape. -/
def load_data : FileState → Json
  | FileState.absent => Json.obj []
  | FileState.present (Except.error _) => Json.obj []
  | FileState.present (Except.ok j) => j

/-- Source lines 40-45, NetworkClipboard.save_data: overwrite the storage
file with the serialization of self.data; the file now parses back to
exactly that value. -/
def save_data (st : SysState) : SysState :=
  { data := st.data, file := FileState.present (Except.ok st.data) }

/-- Source lines 12-21, NetworkClipboard.__init__: self.data is loaded
from the storage file. -/
def network_clipboard_init (f : FileState) : SysState :=
  { data := load_data f, file := f }

/-- Source line 75: self.data.get(entry_id). On a dict this returns the
value, or None (here: none) when absent; on any other value the attribute
access .get raises AttributeError, modelled by the error branch. -/
def dict_get (data : Json) (k : String) : Except Unit (Option Json) :=
  match data with
  | Json.obj kvs => Except.ok (getKey kvs k)
  | _ => Except.error ()

/-- Identifier and updated store produced by one creation on a dict store:
the truncated UUID and the store with the new entry assigned under it. -/
def create_core (kvs : List (String × Json)) (content : Json) (u1 u2 : Nat) :
    String × List (String × Json) :=
  (short_id u1, setKey kvs (short_id u1) (mkEntry content u2))

/-- Source lines 47-63, NetworkClipboard.create_entry: generate the
truncated identifier, assign the new entry dict under it, save the whole
store to disk, return the identifier. When self.data is not a dict (it can
be any JSON value after loading a hand-edited file) the item assignment
raises, modelled by the error branch; u1 and u2 are the two random UUID
values consumed by the call. -/
def create_entry (st : SysState) (content : Json) (u1 u2 : Nat) :
    Except Unit (String × SysState) :=
  match st.data with
  | Json.obj kvs =>
    Except.ok ((create_core kvs content u1 u2).1,
      save_data { data := Json.obj (create_core kvs content u1 u2).2, file := st.file })
  | _ => Except.error ()

/-- Source lines 65-75, NetworkClipboard.get_entry: return
self.data.get(entry_id), the entry or None. -/
def get_entry (st : SysState) (entry_id : String) : Except Unit (Option Json) :=
  dict_get st.data entry_id

/-- Disk operations, used to make the disk footprint of each operation
explicit. -/
inductive DiskOp
  | read
  | write

/-- Operation form of get_entry: result, resulting process state, and the
list of disk operations performed. The body of get_entry only reads
self.data, so the state is returned unchanged and no disk operation
occurs. -/
def get_entry_op (st : SysState) (entry_id : String) :
    Except Unit (Option Json) × SysState × List DiskOp :=
  (get_entry st entry_id, st, ([] : List DiskOp))

/-- Operation form of create_entry: on success the store was mutated and
save_data wrote the file once; on failure the item assignment raised
before any disk access. -/
def create_entry_op (st : SysState) (content : Json) (u1 u2 : Nat) :
    Except Unit String × SysState × List DiskOp :=
  match create_entry st content u1 u2 with
  | Except.ok (id, st') => (Except.ok id, st', [DiskOp.write])
  | Except.error e => (Except.error e, st, [])

/-- Fixed 400 payload of the create handler. -/
def contentRequired : Json := Json.obj [("error", Json.str "Content is required")]

/-- Fixed 404 payload of the get handler. -/
def entryNotFound : Json := Json.obj [("error", Json.str "Entry not found")]

/-- Source lines 202-215, the POST create handler. The body argument is
the outcome of request.json: none models a request whose body Flask hands
to the handler as None. The guard is: if not data or "content" not in
data, answer 400 with the fixed error payload; otherwise data["content"]
is passed to create_entry and the fresh identifier is answered with
status 200. An exception escaping the handler (TypeError from the
membership test or the subscript, or from the store mutation) is the
error branch, surfaced by Flask as a server error, not a 400. -/
def create_clipboard_entry (st : SysState) (body : Option Json) (u1 u2 : Nat) :
    Except Unit (Nat × Json × SysState) :=
  match body with
  | none => Except.ok (400, contentRequired, st)
  | some data =>
    if truthy data then
      match pyContains data "content" with
      | Except.error _ => Except.error ()
      | Except.ok false => Except.ok (400, contentRequired, st)
      | Except.ok true =>
        match pySubscript data "content" with
        | Except.error _ => Except.error ()
        | Except.ok v =>
          match create_entry st v u1 u2 with
          | Except.error _ => Except.error ()
          | Except.ok (id, st') => Except.ok (200, Json.obj [("id", Json.str id)], st')
    else Except.ok (400, contentRequired, st)

/-- Source lines 217-227, the GET retrieve handler: entry =
clipboard.get_entry(entry_id); if entry is truthy answer it with status
200, otherwise answer 404 with the fixed error payload. Note the guard is
Python truthiness of the entry, not a None test. -/
def get_clipboard_entry (st : SysState) (entry_id : String) :
    Except Unit (Nat × Json) :=
  match get_entry st entry_id with
  | Except.error _ => Except.error ()
  | Except.ok none => Except.ok (404, entryNotFound)
  | Except.ok (some e) =>
    if truthy e then Except.ok (200, e) else Except.ok (404, entryNotFound)

/-- Store reached from s by a sequence of creation calls, each call given
as content and the two consumed UUID values. -/
def runStore : List (String × Json) → List (Json × Nat × Nat) → List (String × Json)
  | s, [] => s
  | s, (c, u1, u2) :: rest => runStore (create_core s c u1 u2).2 rest

/-- Identifiers returned by a sequence of creation calls (the identifier
depends only on the first UUID value of the call). -/
def runIds : List (Json × Nat × Nat) → List String
  | [] => []
  | (_, u1, _) :: rest => short_id u1 :: runIds rest

/-! Helper lemmas about the association-list store and the run of a
sequence of creation calls. -/

theorem getKey_setKey_self (kvs : List (String × Json)) (k : String) (v : Json) :
    getKey (setKey kvs k v) k = some v := by
  induction kvs with
  | nil => simp [setKey, getKey]
  | cons p rest ih =>
    by_cases h : p.1 = k
    · simp [setKey, h, getKey]
    · simp [setKey, h, getKey, ih]

theorem getKey_setKey_ne (kvs : List (String × Json)) (k k2 : String) (v : Json)
    (h : k ≠ k2) : getKey (setKey kvs k v) k2 = getKey kvs k2 := by
  induction kvs with
  | nil => simp [setKey, getKey, h]
  | cons p rest ih =>
    by_cases hp : p.1 = k
    · simp [setKey, hp, getKey, h]
    · simp [setKey, hp, getKey, ih]

theorem runStore_append (s : List (String × Json)) (l1 l2 : List (Json × Nat × Nat)) :
    runStore s (l1 ++ l2) = runStore (runStore s l1) l2 := by
  induction l1 generalizing s with
  | nil => rfl
  | cons x rest ih =>
    obtain ⟨c, u1, u2⟩ := x
    simp [runStore, ih]

theorem runStore_preserve (l : List (Json × Nat × Nat)) (s : List (String × Json))
    (k : String) (h : k ∉ runIds l) : getKey (runStore s l) k = getKey s k := by
  induction l generalizing s with
  | nil => rfl
  | cons x rest ih =>
    obtain ⟨c, u1, u2⟩ := x
    simp [runIds] at h
    rw [runStore, ih _ h.2, create_core, getKey_setKey_ne _ _ _ _ (fun he => h.1 he.symm)]

theorem length_hexChars (w : Nat) : ∀ n : Nat, (hexChars w n).length = w := by
  induction w with
  | zero => intro n; rfl
  | succ w ih => intro n; simp [hexChars, ih]

theorem length_uuidChars (u : Nat) : (uuidChars u).length = 36 := by
  simp [uuidChars, length_hexChars]

theorem length_mk (l : List Char) : (String.mk l).length = l.length := rfl

/-! Claims. -/

/-- Claim C1: for every content string c, calling CreateEntry(c) and then
GetEntry with the returned identifier yields an entry whose content field
equals c. -/
theorem c1_create_then_get (st : SysState) (c : String) (u1 u2 : Nat)
    (id : String) (st' : SysState)
    (h : create_entry st (Json.str c) u1 u2 = Except.ok (id, st')) :
    ∃ e, get_entry st' id = Except.ok (some e)
      ∧ pySubscript e "content" = Except.ok (Json.str c) := by
  cases hd : st.data <;> simp [create_entry, hd, create_core] at h
  obtain ⟨h1, h2⟩ := h
  subst h1
  subst h2
  refine ⟨mkEntry (Json.str c) u2, ?_, rfl⟩
  simp [get_entry, dict_get, save_data, getKey_setKey_self]

/-- Witness for C1 at the empty store, content "hello", UUID values 0. -/
theorem c1_witness :
    ∃ e, get_entry (SysState.mk (Json.obj [("00000000", mkEntry (Json.str "hello") 0)])
        (FileState.present (Except.ok (Json.obj [("00000000", mkEntry (Json.str "hello") 0)]))))
        "00000000"
      = Except.ok (some e)
      ∧ pySubscript e "content" = Except.ok (Json.str "hello") :=
  c1_create_then_get (SysState.mk (Json.obj []) FileState.absent) "hello" 0 0
    "00000000"
    (SysState.mk (Json.obj [("00000000", mkEntry (Json.str "hello") 0)])
      (FileState.present (Except.ok (Json.obj [("00000000", mkEntry (Json.str "hello") 0)]))))
    rfl

/-- Counterexample to claim C2: two creation calls whose 128-bit UUID
values 0 and 1 differ but share their first eight hexadecimal characters
both return identifier "00000000"; after the second call the identifier
returned by the first call resolves to the entry of the second call, whose
content "y" is not the content "x" it was created with. The second call
silently replaced the first entry, so the claim as stated is false. -/
theorem c2_counterexample :
    runIds [(Json.str "x", 0, 0), (Json.str "y", 1, 1)] = ["00000000", "00000000"]
  ∧ get_entry (SysState.mk (Json.obj (runStore [] [(Json.str "x", 0, 0), (Json.str "y", 1, 1)]))
      FileState.absent) "00000000"
      = Except.ok (some (mkEntry (Json.str "y") 1))
  ∧ pySubscript (mkEntry (Json.str "x") 0) "content" = Except.ok (Json.str "x")
  ∧ Json.str "y" ≠ Json.str "x" := by
  refine ⟨rfl, rfl, rfl, ?_⟩
  intro h
  injection h with h2
  exact absurd h2 (by decide)

/-- Claim C2 as amended: an identifier returned by a creation call
resolves via GetEntry to exactly the entry created for it (same content
and created marker) at every later point, provided no later creation call
returns an equal (collided) identifier; a colliding later creation
replaces the entry. -/
theorem c2_amended (pre post : List (Json × Nat × Nat)) (c : Json) (u1 u2 : Nat)
    (f : FileState) (h : short_id u1 ∉ runIds post) :
    get_entry (SysState.mk (Json.obj (runStore [] (pre ++ (c, u1, u2) :: post))) f)
      (short_id u1) = Except.ok (some (mkEntry c u2)) := by
  show Except.ok (getKey (runStore [] (pre ++ (c, u1, u2) :: post)) (short_id u1)) = _
  rw [runStore_append]
  show Except.ok (getKey (runStore (create_core (runStore [] pre) c u1 u2).2 post)
    (short_id u1)) = _
  rw [runStore_preserve post _ _ h, create_core, getKey_setKey_self]

/-- Witness for the amended C2: a creation followed by one returning a
distinct identifier leaves the first entry intact. -/
theorem c2_witness :
    get_entry (SysState.mk (Json.obj (runStore []
        ([] ++ (Json.str "a", 0, 7) :: [(Json.str "b", 2 ^ 96, 3)]))) FileState.absent)
      (short_id 0)
      = Except.ok (some (mkEntry (Json.str "a") 7)) :=
  c2_amended [] [(Json.str "b", 2 ^ 96, 3)] (Json.str "a") 0 7 FileState.absent
    (by decide)

/-- Counterexample to claim C3: a storage file holding the JSON document
of an empty list parses as JSON, yet is not the expected key-to-object
format; the claim then requires an empty mapping, but load_data returns
the list itself, a value different from the empty mapping. -/
theorem c3_counterexample :
    load_data (FileState.present (Except.ok (Json.arr []))) = Json.arr []
  ∧ Json.arr [] ≠ Json.obj [] :=
  ⟨rfl, fun h => Json.noConfusion h⟩

/-- Claim C3 as amended: load_data returns the parsed value whenever the
file parses as JSON (in particular the full stored mapping when that value
is the expected key-to-object document), and returns an empty mapping,
without raising, exactly when the file is absent or its contents are not
valid JSON; parsed contents that are not an object are returned as is
rather than replaced by an empty mapping. -/
theorem c3_amended (j : Json) (e : Unit) :
    load_data FileState.absent = Json.obj []
  ∧ load_data (FileState.present (Except.error e)) = Json.obj []
  ∧ load_data (FileState.present (Except.ok j)) = j :=
  ⟨rfl, rfl, rfl⟩

/-- Claim C4: the identifier returned by CreateEntry is exactly the first
eight characters of the 36-character textual form of the 128-bit random
value consumed by the call, hence an 8-character token. -/
theorem c4_short_id (st : SysState) (c : Json) (u1 u2 : Nat) (id : String)
    (st' : SysState) (h : create_entry st c u1 u2 = Except.ok (id, st')) :
    id = String.mk ((uuidChars u1).take 8) ∧ id.length = 8
      ∧ (uuid_str u1).length = 36 := by
  cases hd : st.data <;> simp [create_entry, hd, create_core] at h
  obtain ⟨h1, _⟩ := h
  subst h1
  refine ⟨rfl, ?_, ?_⟩
  · rw [short_id, length_mk, List.length_take, length_uuidChars]
    decide
  · rw [uuid_str, length_mk, length_uuidChars]

/-- Witness for C4 at the empty store and UUID value 5. -/
theorem c4_witness :
    short_id 5 = String.mk ((uuidChars 5).take 8) ∧ (short_id 5).length = 8
      ∧ (uuid_str 5).length = 36 :=
  c4_short_id (SysState.mk (Json.obj []) FileState.absent) Json.null 5 7
    (short_id 5)
    (SysState.mk (Json.obj [("00000000", mkEntry Json.null 7)])
      (FileState.present (Except.ok (Json.obj [("00000000", mkEntry Json.null 7)]))))
    rfl

/-- Claim C5: for every identifier never returned by any creation call of
a run, GetEntry on the resulting store yields none, and this outcome is a
different value from a successful lookup of an entry with empty string
content (get_entry returns the entry itself or None, so presence of an
empty-content entry and absence are distinguishable). -/
theorem c5_not_found (calls : List (Json × Nat × Nat)) (id : String)
    (f : FileState) (u : Nat) (h : id ∉ runIds calls) :
    get_entry (SysState.mk (Json.obj (runStore [] calls)) f) id = Except.ok none
  ∧ (Except.ok (some (mkEntry (Json.str "") u)) : Except Unit (Option Json))
      ≠ Except.ok none := by
  constructor
  · show Except.ok (getKey (runStore [] calls) id) = Except.ok none
    rw [runStore_preserve calls [] id h]
    rfl
  · intro hc
    simp at hc

/-- Witness for C5: after one creation, an identifier that was never
returned is not found. -/
theorem c5_witness :
    get_entry (SysState.mk (Json.obj (runStore [] [(Json.str "a", 0, 0)]))
      FileState.absent) "zzzzzzzz" = Except.ok none
  ∧ (Except.ok (some (mkEntry (Json.str "") 3)) : Except Unit (Option Json))
      ≠ Except.ok none :=
  c5_not_found [(Json.str "a", 0, 0)] "zzzzzzzz" FileState.absent 3 (by decide)

/-- Counterexample to claim C6: the body 5 is valid structured data (a
JSON number) and lacks a content field, so the claim requires status 400
with the fixed error payload; instead the membership test of "content" in
the number raises TypeError, which escapes the handler as a server error,
neither the 400 response nor a 200 response. -/
theorem c6_counterexample :
    create_clipboard_entry (SysState.mk (Json.obj []) FileState.absent)
      (some (Json.num 5)) 0 0 = Except.error () := rfl

/-- Claim C6 as amended: when the parsed body is absent or falsy (invalid
body, null, empty object, empty array, empty string, zero, false), or is
an object without the key "content", the response is status 400 with the
fixed error payload; when the body is an object containing the key
"content" and the store accepts the insertion, CreateEntry is invoked on
the value of that key and the response is status 200 carrying the
generated identifier. Truthy bodies of other shapes are not handled by
the guard as the claim states: numbers and true make the membership test
raise, and arrays or strings containing "content" make the subscript
raise, surfacing as a server error instead of the 400 response. -/
theorem c6_amended (st : SysState) (u1 u2 : Nat) :
    create_clipboard_entry st none u1 u2 = Except.ok (400, contentRequired, st)
  ∧ (∀ j : Json, truthy j = false →
      create_clipboard_entry st (some j) u1 u2 = Except.ok (400, contentRequired, st))
  ∧ (∀ kvs : List (String × Json), getKey kvs "content" = none →
      create_clipboard_entry st (some (Json.obj kvs)) u1 u2
        = Except.ok (400, contentRequired, st))
  ∧ (∀ (kvs : List (String × Json)) (v : Json) (id : String) (st' : SysState),
      getKey kvs "content" = some v →
      create_entry st v u1 u2 = Except.ok (id, st') →
      create_clipboard_entry st (some (Json.obj kvs)) u1 u2
        = Except.ok (200, Json.obj [("id", Json.str id)], st')) := by
  refine ⟨rfl, ?_, ?_, ?_⟩
  · intro j hj
    simp [create_clipboard_entry, hj]
  · intro kvs hk
    by_cases ht : truthy (Json.obj kvs) <;>
      simp [create_clipboard_entry, ht, pyContains, hk]
  · intro kvs v id st' hk hc
    cases kvs with
    | nil => simp [getKey] at hk
    | cons p rest =>
      simp [create_clipboard_entry, truthy, pyContains, pySubscript, hk, hc]

/-- Witness for the amended C6: a body carrying content "hi" is accepted
with status 200 and the generated identifier. -/
theorem c6_witness :
    create_clipboard_entry (SysState.mk (Json.obj []) FileState.absent)
      (some (Json.obj [("content", Json.str "hi")])) 0 0
      = Except.ok (200, Json.obj [("id", Json.str "00000000")],
          SysState.mk (Json.obj [("00000000", mkEntry (Json.str "hi") 0)])
            (FileState.present (Except.ok (Json.obj [("00000000", mkEntry (Json.str "hi") 0)])))) :=
  (c6_amended (SysState.mk (Json.obj []) FileState.absent) 0 0).2.2.2
    [("content", Json.str "hi")] (Json.str "hi") "00000000"
    (SysState.mk (Json.obj [("00000000", mkEntry (Json.str "hi") 0)])
      (FileState.present (Except.ok (Json.obj [("00000000", mkEntry (Json.str "hi") 0)]))))
    rfl rfl

/-- Counterexample to claim C7: the identifier "x" is present in the
store, mapped to the empty object, a state reachable by loading a storage
file holding exactly that document; yet the handler answers 404 with the
error payload, because its guard tests Python truthiness of the entry
rather than its presence. The claim as stated is therefore false. -/
theorem c7_counterexample :
    getKey [("x", Json.obj [])] "x" = some (Json.obj [])
  ∧ load_data (FileState.present (Except.ok (Json.obj [("x", Json.obj [])])))
      = Json.obj [("x", Json.obj [])]
  ∧ get_clipboard_entry (SysState.mk (Json.obj [("x", Json.obj [])])
      (FileState.present (Except.ok (Json.obj [("x", Json.obj [])])))) "x"
      = Except.ok (404, entryNotFound) :=
  ⟨rfl, rfl, rfl⟩

/-- Claim C7 as amended: when the identifier is present with a truthy
stored value, as is every entry written by CreateEntry, the response is
status 200 carrying the entry with its content and other stored fields;
when the identifier is absent, and also when it is present with a falsy
stored value (a state only reachable through a storage file produced
outside the program), the response is status 404 with the fixed error
payload. -/
theorem c7_amended (st : SysState) (id : String) (e : Json) (c : Json) (u : Nat) :
    (get_entry st id = Except.ok (some e) → truthy e = true →
      get_clipboard_entry st id = Except.ok (200, e))
  ∧ (get_entry st id = Except.ok none →
      get_clipboard_entry st id = Except.ok (404, entryNotFound))
  ∧ truthy (mkEntry c u) = true := by
  refine ⟨?_, ?_, rfl⟩
  · intro h ht
    simp [get_clipboard_entry, h, ht]
  · intro h
    simp [get_clipboard_entry, h]

/-- Witness for the amended C7: a stored entry is answered with 200. -/
theorem c7_witness :
    get_clipboard_entry (SysState.mk (Json.obj [("a", mkEntry (Json.str "t") 0)])
      FileState.absent) "a" = Except.ok (200, mkEntry (Json.str "t") 0) :=
  (c7_amended (SysState.mk (Json.obj [("a", mkEntry (Json.str "t") 0)]) FileState.absent)
    "a" (mkEntry (Json.str "t") 0) (Json.str "t") 0).1 rfl rfl

/-- Claim C8: persisting the in-memory mapping and then loading it from
the same file, as the constructor does across a process restart, yields
the mapping unchanged, so every previously created entry is preserved
exactly, identifier, content and created marker included. -/
theorem c8_roundtrip (st : SysState) (id : String) :
    (network_clipboard_init (save_data st).file).data = st.data
  ∧ dict_get (network_clipboard_init (save_data st).file).data id
      = dict_get st.data id :=
  ⟨rfl, rfl⟩

/-- Claim C9: get_entry is a pure lookup: its operation form returns the
process state (memory and storage file) unchanged and performs no disk
operation, and its result depends only on the in-memory mapping, not on
the storage file. -/
theorem c9_get_pure (st st2 : SysState) (id : String) :
    (get_entry_op st id).2.1 = st
  ∧ (get_entry_op st id).2.2 = []
  ∧ (st.data = st2.data → get_entry st id = get_entry st2 id) := by
  refine ⟨rfl, rfl, fun h => ?_⟩
  simp [get_entry, h]

/-- Witness for C9: two states with the same mapping but different
storage files give the same lookup result. -/
theorem c9_witness :
    get_entry (SysState.mk (Json.obj []) FileState.absent) "a"
      = get_entry (SysState.mk (Json.obj []) (FileState.present (Except.ok Json.null))) "a" :=
  (c9_get_pure (SysState.mk (Json.obj []) FileState.absent)
    (SysState.mk (Json.obj []) (FileState.present (Except.ok Json.null))) "a").2.2 rfl

/-- Claim C10: a POST create body that is an object containing the key
"content" is accepted with status 200, whatever the type of the value of
that key (null, a number, any JSON value), and the value is stored
unmodified in the entry created for the fresh identifier. -/
theorem c10_nontext_content (st : SysState) (skvs kvs : List (String × Json))
    (v : Json) (u1 u2 : Nat) (hst : st.data = Json.obj skvs)
    (hk : getKey kvs "content" = some v) :
    create_clipboard_entry st (some (Json.obj kvs)) u1 u2
      = Except.ok (200, Json.obj [("id", Json.str (short_id u1))],
          save_data (SysState.mk (Json.obj (setKey skvs (short_id u1) (mkEntry v u2))) st.file))
  ∧ get_entry (save_data (SysState.mk (Json.obj (setKey skvs (short_id u1) (mkEntry v u2)))
        st.file)) (short_id u1)
      = Except.ok (some (mkEntry v u2)) := by
  constructor
  · cases kvs with
    | nil => simp [getKey] at hk
    | cons p rest =>
      simp [create_clipboard_entry, truthy, pyContains, pySubscript, hk,
        create_entry, hst, create_core, save_data]
  · show Except.ok (getKey (setKey skvs (short_id u1) (mkEntry v u2)) (short_id u1)) = _
    rw [getKey_setKey_self]

/-- Witness for C10: a null content value is accepted and stored as is. -/
theorem c10_witness :
    create_clipboard_entry (SysState.mk (Json.obj []) FileState.absent)
      (some (Json.obj [("content", Json.null)])) 0 0
      = Except.ok (200, Json.obj [("id", Json.str (short_id 0))],
          save_data (SysState.mk (Json.obj (setKey [] (short_id 0) (mkEntry Json.null 0)))
            FileState.absent))
  ∧ get_entry (save_data (SysState.mk (Json.obj (setKey [] (short_id 0) (mkEntry Json.null 0)))
        FileState.absent)) (short_id 0)
      = Except.ok (some (mkEntry Json.null 0)) :=
  c10_nontext_content (SysState.mk (Json.obj []) FileState.absent) []
    [("content", Json.null)] Json.null 0 0 rfl rfl
